import Mathlib

/-!
Verification of the vive_ros2 repository (src/vive_input.cpp, src/vive_node.cpp)
against its natural-language specification.

Machine floats are idealised as exact rationals. The square-root comparison
of vive_input.cpp line 106 (delta_distance > 0.05, with delta_distance the
Euclidean norm of the position delta) is modelled by comparing the squared
distance against the squared threshold; the bridging lemma
delta_sqrt_gt_iff proves the two formulations equivalent over the reals.
-/

namespace ViveRos2

/-! Producer side: ViveInput::runVR in src/vive_input.cpp. -/

/-- A 3-component position vector (floats idealised as rationals). -/
structure V3 where
  x : ℚ
  y : ℚ
  z : ℚ
deriving DecidableEq

/-- Squared Euclidean displacement, mirroring vive_input.cpp lines 93 to 96
(delta_x * delta_x + delta_y * delta_y + delta_z * delta_z, before the sqrt). -/
def deltaSq (a b : V3) : ℚ :=
  (a.x - b.x) * (a.x - b.x) + (a.y - b.y) * (a.y - b.y) + (a.z - b.z) * (a.z - b.z)

/-- Square of the distance threshold 0.05 hard-coded at vive_input.cpp line 106. -/
def distThreshSq : ℚ := (5 / 100) * (5 / 100)

/-- State of the producer loop that the claims touch: the Sample Filter history
(first_run, prev_position, prev_time from vive_input.cpp lines 30 to 33), the
log-throttle clock lastLogTime (line 52), and the shared mailbox content
(shared_data, none before the first accepted sample). -/
structure PState where
  first_run : Bool
  prev_position : V3
  prev_time : ℚ
  lastLogTime : ℚ
  shared : Option V3
deriving DecidableEq

/-- State produced by the acceptance path of a tick (vive_input.cpp lines
112 to 125 and 141): filter history updated to the candidate, mailbox
overwritten, lastLogTime refreshed. -/
def acceptTick (pos : V3) (t : ℚ) : PState :=
  { first_run := false, prev_position := pos, prev_time := t,
    lastLogTime := t, shared := some pos }

/-- One iteration of the while loop of ViveInput::runVR (vive_input.cpp lines
54 to 143) with at most one qualifying tracker per tick. some pos is a tick
whose device scan found a connected, valid, tracking-OK generic tracker at
position pos; none is a tick with no qualifying device. t is the monotonic
clock reading of the tick. On a tracker tick with a filter history, a
displacement above the threshold hits the continue at line 108 (history and
mailbox untouched, lastLogTime still refreshed at line 141); otherwise the
sample is accepted. On a no-tracker tick, first_run is reset only inside the
one-second log throttle at lines 133 to 137. -/
def tickStep (s : PState) (t : ℚ) (obs : Option V3) : PState :=
  match obs with
  | some pos =>
      if s.first_run = false ∧ distThreshSq < deltaSq pos s.prev_position then
        { s with lastLogTime := t }
      else
        acceptTick pos t
  | none =>
      if 1 ≤ t - s.lastLogTime then
        { s with first_run := true, lastLogTime := t }
      else
        s

/-- Bridge between the sqrt-based comparison of the source (vive_input.cpp lines 96
and 106) and the squared comparison used by the model: the Euclidean distance
exceeds 0.05 exactly when the squared distance exceeds 0.05 squared. -/
theorem delta_sqrt_gt_iff (a b : V3) :
    (5 / 100 : ℝ) < Real.sqrt ((deltaSq a b : ℚ) : ℝ) ↔ distThreshSq < deltaSq a b := by
  rw [Real.lt_sqrt (by norm_num : (0 : ℝ) ≤ 5 / 100)]
  rw [show ((5 : ℝ) / 100) ^ 2 = ((distThreshSq : ℚ) : ℝ) by
        push_cast [distThreshSq]; norm_num]
  exact_mod_cast Iff.rfl

/-- A producer state with a filter history: one sample at the origin has been
accepted, at time 0. -/
def pOrigin : PState :=
  { first_run := false, prev_position := ⟨0, 0, 0⟩, prev_time := 0,
    lastLogTime := 0, shared := some ⟨0, 0, 0⟩ }

/-- C3: for a candidate that follows an accepted sample (first_run is false),
the tick rejects exactly when the squared displacement from the previous
accepted position exceeds the squared 0.05 threshold; on rejection the filter
history and the mailbox are untouched (only the log clock advances), and on
acceptance the candidate is written to the mailbox and becomes the new
baseline. The second conjunct ties the squared comparison used by the model
to the sqrt-based comparison of the source. -/
theorem c3_filter_threshold (s : PState) (t : ℚ) (pos : V3)
    (h : s.first_run = false) :
    tickStep s t (some pos) =
      (if distThreshSq < deltaSq pos s.prev_position
       then { s with lastLogTime := t }
       else acceptTick pos t) ∧
    ((5 / 100 : ℝ) < Real.sqrt ((deltaSq pos s.prev_position : ℚ) : ℝ) ↔
      distThreshSq < deltaSq pos s.prev_position) := by
  refine ⟨?_, delta_sqrt_gt_iff pos s.prev_position⟩
  simp [tickStep, h]

/-- Witness for c3_filter_threshold at a concrete state: previous accepted
position at the origin, candidate displaced by one meter. -/
theorem c3_filter_threshold_witness :
    (tickStep pOrigin 1 (some ⟨1, 0, 0⟩) =
      (if distThreshSq < deltaSq ⟨1, 0, 0⟩ pOrigin.prev_position
       then { pOrigin with lastLogTime := 1 }
       else acceptTick ⟨1, 0, 0⟩ 1) ∧
    ((5 / 100 : ℝ) < Real.sqrt ((deltaSq ⟨1, 0, 0⟩ pOrigin.prev_position : ℚ) : ℝ) ↔
      distThreshSq < deltaSq ⟨1, 0, 0⟩ pOrigin.prev_position)) :=
  c3_filter_threshold pOrigin 1 ⟨1, 0, 0⟩ rfl

/-- C4 counterexample: a single no-tracker tick at time one half (less than one
second since lastLogTime) does not reset first_run, and the sample reacquired
right after it, displaced one meter from the pose seen before the gap, is
rejected: the mailbox still holds the origin, not the reacquired position.
This refutes the claim that the first sample after any NoTrackerDetected to
TrackerActive transition is always accepted. -/
theorem c4_counterexample :
    (tickStep pOrigin (1 / 2) none).first_run = false ∧
    (tickStep (tickStep pOrigin (1 / 2) none) (11 / 20) (some ⟨1, 0, 0⟩)).shared
      = some ⟨0, 0, 0⟩ ∧
    (tickStep (tickStep pOrigin (1 / 2) none) (11 / 20) (some ⟨1, 0, 0⟩)).shared
      ≠ some ⟨1, 0, 0⟩ ∧
    (tickStep (tickStep pOrigin (1 / 2) none) (11 / 20) (some ⟨1, 0, 0⟩)).prev_position
      = ⟨0, 0, 0⟩ := by
  have h1 : tickStep pOrigin (1 / 2) none = pOrigin := by
    norm_num [tickStep, pOrigin]
  have h2 : tickStep pOrigin (11 / 20) (some ⟨1, 0, 0⟩) =
      { pOrigin with lastLogTime := 11 / 20 } := by
    norm_num [tickStep, pOrigin, deltaSq, distThreshSq]
  rw [h1, h2]
  norm_num [pOrigin]

/-- C4 amended: a no-tracker tick resets the filter history only when at least
one second has elapsed since lastLogTime (the log-throttle guard at
vive_input.cpp line 133); after such a tick the first reacquired sample is
accepted regardless of its displacement, and becomes the new mailbox content
and baseline. -/
theorem c4_reset_after_long_gap (s : PState) (t tr : ℚ) (pos : V3)
    (h : 1 ≤ t - s.lastLogTime) :
    (tickStep s t none).first_run = true ∧
    tickStep (tickStep s t none) tr (some pos) = acceptTick pos tr := by
  have h1 : tickStep s t none = { s with first_run := true, lastLogTime := t } := by
    simp [tickStep, h]
  refine ⟨by rw [h1], ?_⟩
  rw [h1]
  simp [tickStep]

/-- Witness for c4_reset_after_long_gap: a two-second gap, then reacquisition
one meter away. -/
theorem c4_reset_after_long_gap_witness :
    ((tickStep pOrigin 2 none).first_run = true ∧
    tickStep (tickStep pOrigin 2 none) 2 (some ⟨1, 0, 0⟩) = acceptTick ⟨1, 0, 0⟩ 2) :=
  c4_reset_after_long_gap pOrigin 2 2 ⟨1, 0, 0⟩ (by norm_num [pOrigin])

/-- A producer state whose last accepted sample is at the origin with
prev_time 5, used to build a zero-dt tick. -/
def pZeroDt : PState :=
  { first_run := false, prev_position := ⟨0, 0, 0⟩, prev_time := 5,
    lastLogTime := 5, shared := some ⟨0, 0, 0⟩ }

/-- C7 counterexample: a candidate arriving with delta time exactly zero
(tick time equal to prev_time) and displacement one meter is rejected, not
accepted: the mailbox keeps the origin. This refutes the claim that a sample
with non-positive dt is accepted without a velocity computation; the source
computes velocity unconditionally (vive_input.cpp line 97, a float division
that cannot trap) and still applies the distance gate. -/
theorem c7_counterexample :
    (5 : ℚ) - pZeroDt.prev_time = 0 ∧
    (tickStep pZeroDt 5 (some ⟨1, 0, 0⟩)).shared = some ⟨0, 0, 0⟩ ∧
    (tickStep pZeroDt 5 (some ⟨1, 0, 0⟩)).shared ≠ some ⟨1, 0, 0⟩ := by
  have h : tickStep pZeroDt 5 (some ⟨1, 0, 0⟩) = { pZeroDt with lastLogTime := 5 } := by
    norm_num [tickStep, pZeroDt, deltaSq, distThreshSq]
  rw [h]
  norm_num [pZeroDt]

/-- C7 amended: the accept/reject decision never inspects the tick time, so a
zero or negative dt changes nothing: the filter outcome (mailbox content,
baseline position, first_run flag) at any tick time equals the outcome at any
other tick time, and in particular no division by zero can influence it. -/
theorem c7_dt_independent (s : PState) (t1 t2 : ℚ) (pos : V3) :
    (tickStep s t1 (some pos)).shared = (tickStep s t2 (some pos)).shared ∧
    (tickStep s t1 (some pos)).prev_position = (tickStep s t2 (some pos)).prev_position ∧
    (tickStep s t1 (some pos)).first_run = (tickStep s t2 (some pos)).first_run := by
  by_cases h : s.first_run = false ∧ distThreshSq < deltaSq pos s.prev_position
  · simp [tickStep, h]
  · simp [tickStep, h, acceptTick]

/-! Client side: the Client class in src/vive_node.cpp. -/

/-- Modelled from the spec: the Quaternion class lives in VRUtils.hpp, which is
not under src/; the spec (section 4.6) requires the standard quaternion
multiply and fixes the inverse of a unit quaternion as its conjugate.
Constructor argument order w, x, y, z matches the calls at vive_node.cpp
lines 90 and 91. -/
structure Quat where
  w : ℚ
  x : ℚ
  y : ℚ
  z : ℚ
deriving DecidableEq

/-- Modelled from the spec: standard Hamilton quaternion product. -/
def Quat.mul (a b : Quat) : Quat :=
  { w := a.w * b.w - a.x * b.x - a.y * b.y - a.z * b.z,
    x := a.w * b.x + a.x * b.w + a.y * b.z - a.z * b.y,
    y := a.w * b.y - a.x * b.z + a.y * b.w + a.z * b.x,
    z := a.w * b.z + a.x * b.y - a.y * b.x + a.z * b.w }

/-- Modelled from the spec: inverse of a unit quaternion is its conjugate. -/
def Quat.inverse (q : Quat) : Quat := { w := q.w, x := -q.x, y := -q.y, z := -q.z }

/-- Squared norm of a quaternion, used to state unit-ness. -/
def Quat.normSq (q : Quat) : ℚ := q.w * q.w + q.x * q.x + q.y * q.y + q.z * q.z

/-- Quaternion multiplication is associative, so the left-associated product
written by the source at vive_node.cpp line 98 agrees with any other
association of the sandwich product. -/
theorem Quat.mul_assoc (a b c : Quat) :
    Quat.mul (Quat.mul a b) c = Quat.mul a (Quat.mul b c) := by
  simp only [Quat.mul, Quat.mk.injEq]
  refine ⟨by ring, by ring, by ring, by ring⟩

/-- Modelled from the spec and from field usage in both source files: the
VRControllerData struct of VRUtils.hpp (header not under src/), holding one
decoded sample. Fields follow spec section 3 and the assignments at
vive_node.cpp lines 190 to 206. -/
structure VRControllerData where
  pose_x : ℚ
  pose_y : ℚ
  pose_z : ℚ
  pose_qx : ℚ
  pose_qy : ℚ
  pose_qz : ℚ
  pose_qw : ℚ
  grip_button : Bool
  trigger_button : Bool
  trackpad_button : Bool
  trackpad_touch : Bool
  menu_button : Bool
  trackpad_x : ℚ
  trackpad_y : ℚ
  trigger : ℚ
  role : ℤ
  time : String
deriving DecidableEq

/-- Modelled from the spec: a default-constructed VRControllerData (the
sentinel or default sample of spec section 3), with zero pose and analog
fields and all buttons false, as produced by the declaration at
vive_node.cpp line 234. -/
def defaultVRData : VRControllerData :=
  { pose_x := 0, pose_y := 0, pose_z := 0, pose_qx := 0, pose_qy := 0,
    pose_qz := 0, pose_qw := 0, grip_button := false, trigger_button := false,
    trackpad_button := false, trackpad_touch := false, menu_button := false,
    trackpad_x := 0, trackpad_y := 0, trigger := 0, role := 0, time := "" }

/-- Orientation quaternion of a sample, ordered as the constructor calls at
vive_node.cpp lines 90 and 91. -/
def quatOf (d : VRControllerData) : Quat :=
  { w := d.pose_qw, x := d.pose_qx, y := d.pose_qy, z := d.pose_qz }

/-- Position vector of a sample. -/
def posOf (d : VRControllerData) : V3 := { x := d.pose_x, y := d.pose_y, z := d.pose_z }

/-- Client::calculateRelativePose, vive_node.cpp lines 81 to 112, translated
statement by statement: position delta, relative quaternion
initialQuat.inverse() * currentQuat, and the left-associated sandwich
initialQuat.inverse() * relPosQuat * initialQuat; only the pose fields of the
default-constructed result are overwritten. -/
def calculateRelativePose (initial current : VRControllerData) : VRControllerData :=
  let rel_x := current.pose_x - initial.pose_x
  let rel_y := current.pose_y - initial.pose_y
  let rel_z := current.pose_z - initial.pose_z
  let initialQuat := quatOf initial
  let currentQuat := quatOf current
  let relativeQuat := Quat.mul (Quat.inverse initialQuat) currentQuat
  let relPosQuat : Quat := { w := 0, x := rel_x, y := rel_y, z := rel_z }
  let rotatedPosQuat := Quat.mul (Quat.mul (Quat.inverse initialQuat) relPosQuat) initialQuat
  { defaultVRData with
      pose_x := rotatedPosQuat.x, pose_y := rotatedPosQuat.y, pose_z := rotatedPosQuat.z,
      pose_qx := relativeQuat.x, pose_qy := relativeQuat.y, pose_qz := relativeQuat.z,
      pose_qw := relativeQuat.w }

/-- Spec-side definition (spec section 4.6) for the refinement comparison:
relative orientation is inverse of the reference orientation composed with
the current orientation. -/
def specRelOrientation (qref qcur : Quat) : Quat := Quat.mul (Quat.inverse qref) qcur

/-- Pure quaternion carrying a position vector. -/
def pureQuat (v : V3) : Quat := { w := 0, x := v.x, y := v.y, z := v.z }

/-- Componentwise vector difference. -/
def vsub (a b : V3) : V3 := { x := a.x - b.x, y := a.y - b.y, z := a.z - b.z }

/-- Spec-side definition (spec section 4.6) for the refinement comparison:
relative position is inverse of the reference orientation composed with the
position delta as a pure quaternion composed with the reference orientation,
written here with the right association to match the spec reading. -/
def specRelPosition (qref : Quat) (pref pcur : V3) : Quat :=
  Quat.mul (Quat.inverse qref) (Quat.mul (pureQuat (vsub pcur pref)) qref)

/-- A sample at the given position with the identity orientation and all
buttons released. -/
def idSample (x y z : ℚ) : VRControllerData :=
  { defaultVRData with pose_x := x, pose_y := y, pose_z := z, pose_qw := 1 }

/-- Reference sample for the C1 counterexample: origin position, unit
quaternion (0, 0, 0, 1) in w, x, y, z order — a half-turn about the z axis. -/
def exRef : VRControllerData := { defaultVRData with pose_qz := 1 }

/-- Current sample for the C1 counterexample: the reference translated by
(1, 0, 0) with the identical orientation. -/
def exCur : VRControllerData := { defaultVRData with pose_x := 1, pose_qz := 1 }

/-- C1 counterexample: with reference orientation a half-turn about z (a unit
quaternion) and the current sample translated by (1, 0, 0) with the identical
orientation, Client::calculateRelativePose returns relative position
(-1, 0, 0), not (1, 0, 0): the position delta is expressed in the rotated
reference basis, so the claimed in-particular consequence fails for
non-identity orientations. -/
theorem c1_counterexample :
    Quat.normSq (quatOf exRef) = 1 ∧
    posOf exCur = ⟨exRef.pose_x + 1, exRef.pose_y, exRef.pose_z⟩ ∧
    quatOf exCur = quatOf exRef ∧
    posOf (calculateRelativePose exRef exCur) = ⟨-1, 0, 0⟩ ∧
    posOf (calculateRelativePose exRef exCur) ≠ ⟨1, 0, 0⟩ := by
  refine ⟨?_, ?_, ?_, ?_, ?_⟩ <;>
    norm_num [Quat.normSq, quatOf, posOf, exRef, exCur, calculateRelativePose,
      defaultVRData, Quat.mul, Quat.inverse]

/-- C1 amended: Client::calculateRelativePose implements exactly the spec
formulas — relative orientation is inverse of the reference quaternion times
the current quaternion, and relative position is the sandwich product of the
inverse reference quaternion, the position delta as a pure quaternion, and
the reference quaternion — for every pair of samples; and the in-particular
consequence holds when the shared orientation is the identity: a current
sample translated by (1, 0, 0) from the reference yields relative position
(1, 0, 0) and identity relative orientation. -/
theorem c1_relative_pose (initial current : VRControllerData) (px py pz : ℚ) :
    quatOf (calculateRelativePose initial current)
      = specRelOrientation (quatOf initial) (quatOf current) ∧
    posOf (calculateRelativePose initial current)
      = ⟨(specRelPosition (quatOf initial) (posOf initial) (posOf current)).x,
         (specRelPosition (quatOf initial) (posOf initial) (posOf current)).y,
         (specRelPosition (quatOf initial) (posOf initial) (posOf current)).z⟩ ∧
    posOf (calculateRelativePose (idSample px py pz) (idSample (px + 1) py pz))
      = ⟨1, 0, 0⟩ ∧
    quatOf (calculateRelativePose (idSample px py pz) (idSample (px + 1) py pz))
      = ⟨1, 0, 0, 0⟩ := by
  refine ⟨?_, ?_, ?_, ?_⟩ <;>
    simp only [calculateRelativePose, specRelOrientation, specRelPosition, quatOf, posOf,
      pureQuat, vsub, idSample, defaultVRData, Quat.mul, Quat.inverse,
      Quat.mk.injEq, V3.mk.injEq] <;>
    first
      | (refine ⟨by ring, by ring, by ring, by ring⟩)
      | (refine ⟨by ring, by ring, by ring⟩)

/-! Relative Pose Engine state machine: the per-sample body of Client::start,
vive_node.cpp lines 225 to 251. -/

/-- Client state the per-sample code mutates: triggerButtonPressed
(vive_node.cpp line 25, initially false) and initialPose (line 24). -/
structure CState where
  pressed : Bool
  initialPose : VRControllerData
deriving DecidableEq

/-- Observable output of one per-sample pass: whether the trigger-edge branch
at vive_node.cpp lines 226 to 229 snapshotted the reference, whether a
relative transform was published (line 238), and the relativePose value handed
to publishControllerData at line 251 (default-constructed unless the latch is
active, line 234). -/
structure TickOut where
  latched : Bool
  relPublished : Bool
  relData : VRControllerData
deriving DecidableEq

/-- One pass of the per-sample body of Client::start (vive_node.cpp lines 225
to 251) on a decoded sample j: the trigger false-to-true edge snapshots
initialPose and sets the flag, a true-to-false edge clears the flag; while the
flag is set the relative transform against initialPose is computed and
published; afterwards a sample with menu_button true re-snapshots initialPose
(line 247), after the relative transform of this tick was already computed. -/
def clientTick (s : CState) (j : VRControllerData) : CState × TickOut :=
  let edge := j.trigger_button && !s.pressed
  let pressed1 := if edge then true else if !j.trigger_button && s.pressed then false else s.pressed
  let initial1 := if edge then j else s.initialPose
  let relativePose := if pressed1 then calculateRelativePose initial1 j else defaultVRData
  let initial2 := if j.menu_button then j else initial1
  (⟨pressed1, initial2⟩, ⟨edge, pressed1, relativePose⟩)

/-- Client::start processes decoded samples one at a time in arrival order. -/
def runClient (s : CState) : List VRControllerData → List TickOut
  | [] => []
  | j :: rest =>
      let r := clientTick s j
      r.2 :: runClient r.1 rest

/-- Spec-side definition (spec sections 4.6 and 8): the latch fires exactly on
false-to-true edges of the trigger, given the level seen on the previous tick. -/
def edgeFlags (prev : Bool) : List Bool → List Bool
  | [] => []
  | t :: rest => (t && !prev) :: edgeFlags t rest

/-- After one pass the pressed flag always equals the trigger level of the
sample just processed. -/
theorem clientTick_pressed (s : CState) (j : VRControllerData) :
    (clientTick s j).1.pressed = j.trigger_button := by
  cases hj : j.trigger_button <;> cases hs : s.pressed <;> simp [clientTick, hj, hs]

/-- The edge-latch branch fires exactly when the trigger is down now and the
flag was clear. -/
theorem clientTick_latched (s : CState) (j : VRControllerData) :
    (clientTick s j).2.latched = (j.trigger_button && !s.pressed) := by
  simp [clientTick]

/-- A relative transform is published exactly when the trigger is held on the
tick. -/
theorem clientTick_relPublished (s : CState) (j : VRControllerData) :
    (clientTick s j).2.relPublished = j.trigger_button := by
  cases hj : j.trigger_button <;> cases hs : s.pressed <;> simp [clientTick, hj, hs]

/-- Over any run, the latch events are exactly the false-to-true edges of the
trigger, relative to the level recorded in the starting state. -/
theorem runClient_latched (l : List VRControllerData) : ∀ s : CState,
    (runClient s l).map TickOut.latched
      = edgeFlags s.pressed (l.map VRControllerData.trigger_button) := by
  induction l with
  | nil => intro s; rfl
  | cons j rest ih =>
      intro s
      simp only [runClient, List.map, edgeFlags]
      refine congrArg₂ _ (clientTick_latched s j) ?_
      rw [ih, clientTick_pressed]

/-- Over any run, relative transforms are emitted exactly on the ticks whose
sample holds the trigger. -/
theorem runClient_relPublished (l : List VRControllerData) : ∀ s : CState,
    (runClient s l).map TickOut.relPublished
      = l.map VRControllerData.trigger_button := by
  induction l with
  | nil => intro s; rfl
  | cons j rest ih =>
      intro s
      simp only [runClient, List.map]
      exact congrArg₂ _ (clientTick_relPublished s j) (ih _)

/-- Initial client state: triggerButtonPressed false, initialPose default
constructed (vive_node.cpp lines 24 and 25). -/
def cInit : CState := ⟨false, defaultVRData⟩

/-- Tick one of the edge test: trigger released. -/
def sOff1 : VRControllerData := { defaultVRData with pose_x := 1, pose_qw := 1 }

/-- Tick two of the edge test: trigger held. -/
def sOn1 : VRControllerData :=
  { defaultVRData with pose_x := 2, pose_qw := 1, trigger_button := true }

/-- Tick three of the edge test: trigger still held. -/
def sOn2 : VRControllerData :=
  { defaultVRData with pose_x := 3, pose_qw := 1, trigger_button := true }

/-- Tick four of the edge test: trigger released again. -/
def sOff2 : VRControllerData := { defaultVRData with pose_x := 4, pose_qw := 1 }

/-- C2: the reference is snapshotted by the trigger branch exactly on
false-to-true edges of trigger_button, a relative transform is emitted on a
tick exactly when trigger_button is held on that tick, on a menu-free tick
initialPose changes only through that edge snapshot, and the concrete
sequence false, true, true, false produces exactly one latch with relative
transforms exactly on the two held ticks. -/
theorem c2_trigger_edge_latch (s0 : CState) (l : List VRControllerData)
    (s : CState) (j : VRControllerData) (hmenu : j.menu_button = false) :
    (runClient s0 l).map TickOut.latched
      = edgeFlags s0.pressed (l.map VRControllerData.trigger_button) ∧
    (runClient s0 l).map TickOut.relPublished
      = l.map VRControllerData.trigger_button ∧
    (clientTick s j).1.initialPose
      = (if j.trigger_button && !s.pressed then j else s.initialPose) ∧
    (runClient cInit [sOff1, sOn1, sOn2, sOff2]).map
        (fun o => (o.latched, o.relPublished))
      = [(false, false), (true, true), (false, true), (false, false)] := by
  refine ⟨runClient_latched l s0, runClient_relPublished l s0, ?_, ?_⟩
  · simp [clientTick, hmenu]
  · simp [runClient, clientTick, cInit, sOff1, sOn1, sOn2, sOff2, defaultVRData]

/-- Witness for c2_trigger_edge_latch at concrete inputs: the four-tick edge
sequence from the spec, with the step instance taken at the initial state and
a released sample. -/
theorem c2_trigger_edge_latch_witness :
    ((runClient cInit [sOff1, sOn1, sOn2, sOff2]).map TickOut.latched
      = edgeFlags cInit.pressed
          ([sOff1, sOn1, sOn2, sOff2].map VRControllerData.trigger_button) ∧
    (runClient cInit [sOff1, sOn1, sOn2, sOff2]).map TickOut.relPublished
      = [sOff1, sOn1, sOn2, sOff2].map VRControllerData.trigger_button ∧
    (clientTick cInit sOff1).1.initialPose
      = (if sOff1.trigger_button && !cInit.pressed then sOff1 else cInit.initialPose) ∧
    (runClient cInit [sOff1, sOn1, sOn2, sOff2]).map
        (fun o => (o.latched, o.relPublished))
      = [(false, false), (true, true), (false, true), (false, false)]) :=
  c2_trigger_edge_latch cInit [sOff1, sOn1, sOn2, sOff2] cInit sOff1 rfl

/-- Client state for the C9 counterexample: trigger latch active with the
reference at the origin with identity orientation. -/
def c9s : CState := ⟨true, idSample 0 0 0⟩

/-- Sample for the C9 counterexample: one meter along x, identity orientation,
trigger still held, menu pressed. -/
def c9j : VRControllerData :=
  { idSample 1 0 0 with trigger_button := true, menu_button := true }

/-- C9 counterexample: on a tick whose sample has menu_button true while the
trigger latch is active, the relative transform computed on that very tick
still uses the previous reference (relative x is 1, the offset from the old
origin reference), not the menu-pressed sample itself (which would give
relative x equal to 0); the re-snapshot at vive_node.cpp line 247 runs only
after calculateRelativePose at line 237, though the new reference is indeed
in place for the next tick. -/
theorem c9_counterexample :
    c9j.menu_button = true ∧
    (clientTick c9s c9j).2.relData.pose_x = 1 ∧
    (clientTick c9s c9j).2.relData ≠ calculateRelativePose c9j c9j ∧
    (calculateRelativePose c9j c9j).pose_x = 0 ∧
    (clientTick c9s c9j).1.initialPose = c9j := by
  refine ⟨rfl, ?_, ?_, ?_, ?_⟩ <;>
    norm_num [clientTick, c9s, c9j, calculateRelativePose, idSample,
      defaultVRData, quatOf, Quat.mul, Quat.inverse]

/-- C9 amended: a sample with menu_button true re-snapshots the reference at
the end of its tick: the new reference is initialPose for the following
ticks, but the relative transform computed on the menu tick itself (when the
latch was already active) still uses the previous reference. -/
theorem c9_menu_resnapshot (s : CState) (j : VRControllerData)
    (hmenu : j.menu_button = true) (hheld : s.pressed = true)
    (htrig : j.trigger_button = true) :
    (clientTick s j).1.initialPose = j ∧
    (clientTick s j).2.relData = calculateRelativePose s.initialPose j := by
  simp [clientTick, hmenu, hheld, htrig]

/-- Witness for c9_menu_resnapshot at the concrete latch-active state and
menu-pressed sample of the counterexample. -/
theorem c9_menu_resnapshot_witness :
    ((clientTick c9s c9j).1.initialPose = c9j ∧
    (clientTick c9s c9j).2.relData = calculateRelativePose c9s.initialPose c9j) :=
  c9_menu_resnapshot c9s c9j rfl rfl rfl

/-! Stream Client read loop: the while loop of Client::start, vive_node.cpp
lines 182 to 264. -/

/-- The payload a single read call can deliver, at message granularity: a
whole encoded message, or one half of a message that was split across two
reads (TCP gives no message-boundary guarantee). -/
inductive Chunk where
  | whole (m : VRControllerData)
  | fstHalf (m : VRControllerData)
  | sndHalf (m : VRControllerData)
deriving DecidableEq

/-- Result of one read call at vive_node.cpp line 184: a positive byte count
delivering a chunk, zero for peer close, negative for a read error. -/
inductive ReadResult where
  | recv (c : Chunk)
  | eofRead
  | errRead
deriving DecidableEq

/-- The parse at vive_node.cpp line 188 applied to the bytes of one single
read: json parse succeeds only when the read delivered one whole encoded
object; either half of a split message is incomplete json and raises
parse_error (caught at line 253). -/
def parseChunk : Chunk → Option VRControllerData
  | Chunk.whole m => some m
  | Chunk.fstHalf _ => none
  | Chunk.sndHalf _ => none

/-- Observable outcome of the read loop of Client::start over a list of read
results: the decoded samples in order, the telemetry pairs handed to
publishControllerData (absolute sample and relativePose, line 251), the
number of reconnect calls (line 259), and whether the loop was left through
the break at line 262. -/
structure RunOut where
  decoded : List VRControllerData
  telemetry : List (VRControllerData × VRControllerData)
  reconnects : ℕ
  brokeOnError : Bool
deriving DecidableEq

/-- The while loop of Client::start (vive_node.cpp lines 182 to 264) over a
list of read results, threading the Relative Pose Engine state: a positive
read is parsed on its own (parse failure logs and continues, keeping the
connection); a zero read calls reconnect and continues; a negative read
breaks out of the loop, consuming nothing further. -/
def runRead (s : CState) : List ReadResult → RunOut
  | [] => ⟨[], [], 0, false⟩
  | ReadResult.recv c :: rest =>
      match parseChunk c with
      | some j =>
          let r := clientTick s j
          let t := runRead r.1 rest
          ⟨j :: t.decoded, (j, r.2.relData) :: t.telemetry, t.reconnects, t.brokeOnError⟩
      | none => runRead s rest
  | ReadResult.eofRead :: rest =>
      let t := runRead s rest
      ⟨t.decoded, t.telemetry, t.reconnects + 1, t.brokeOnError⟩
  | ReadResult.errRead :: _ => ⟨[], [], 0, true⟩

/-- C5 counterexample: a transport read error does not trigger the reconnect
loop; it breaks out of the run loop of the client (vive_node.cpp line 262), while
the claim states that a read error, like a peer close, leads to a reconnect
and is never fatal to the loop. -/
theorem c5_counterexample :
    (runRead cInit [ReadResult.errRead]).brokeOnError = true ∧
    (runRead cInit [ReadResult.errRead]).reconnects = 0 ∧
    (runRead cInit [ReadResult.eofRead]).brokeOnError = false ∧
    (runRead cInit [ReadResult.eofRead]).reconnects = 1 := by
  refine ⟨rfl, rfl, rfl, rfl⟩

/-- C5 amended: a peer close (zero-byte read) increments the reconnect count
and the loop continues, exactly as the claim says; but a transport read error
does not reconnect: it terminates the run loop through the break at
vive_node.cpp line 262, discarding the remaining input. -/
theorem c5_eof_reconnects_error_breaks (s : CState) (rest : List ReadResult) :
    (runRead s (ReadResult.eofRead :: rest)).reconnects
      = (runRead s rest).reconnects + 1 ∧
    (runRead s (ReadResult.eofRead :: rest)).brokeOnError
      = (runRead s rest).brokeOnError ∧
    (runRead s (ReadResult.eofRead :: rest)).decoded = (runRead s rest).decoded ∧
    runRead s (ReadResult.errRead :: rest) = ⟨[], [], 0, true⟩ := by
  refine ⟨rfl, rfl, rfl, rfl⟩

/-- Spec-side definition, modelled from the spec (section 6): a client that
accumulates bytes across reads until a fully parseable object is available.
Its buffer holds the first half of a split message; when the matching second
half arrives the reassembled message parses and is decoded. -/
def accumDecode (buf : Option VRControllerData) : List ReadResult → List VRControllerData
  | [] => []
  | ReadResult.recv (Chunk.whole m) :: rest => m :: accumDecode none rest
  | ReadResult.recv (Chunk.fstHalf m) :: rest => accumDecode (some m) rest
  | ReadResult.recv (Chunk.sndHalf m) :: rest =>
      if buf = some m then m :: accumDecode none rest else accumDecode none rest
  | ReadResult.eofRead :: rest => accumDecode buf rest
  | ReadResult.errRead :: _ => []

/-- Message used in the C6 counterexample. -/
def c6m : VRControllerData := idSample 1 2 3

/-- C6 counterexample: a complete message split across two reads is decoded by
the accumulating client the spec requires, but the source client parses each
read in isolation, hits parse_error twice, and decodes nothing; it does not
accumulate bytes across reads. -/
theorem c6_counterexample :
    accumDecode none
        [ReadResult.recv (Chunk.fstHalf c6m), ReadResult.recv (Chunk.sndHalf c6m)]
      = [c6m] ∧
    (runRead cInit
        [ReadResult.recv (Chunk.fstHalf c6m), ReadResult.recv (Chunk.sndHalf c6m)]).decoded
      = [] ∧
    (runRead cInit
        [ReadResult.recv (Chunk.fstHalf c6m), ReadResult.recv (Chunk.sndHalf c6m)]).decoded
      ≠ accumDecode none
          [ReadResult.recv (Chunk.fstHalf c6m), ReadResult.recv (Chunk.sndHalf c6m)] := by
  refine ⟨by simp [accumDecode], rfl, ?_⟩
  intro hcontra
  rw [show accumDecode none
        [ReadResult.recv (Chunk.fstHalf c6m), ReadResult.recv (Chunk.sndHalf c6m)]
      = [c6m] from by simp [accumDecode]] at hcontra
  exact List.noConfusion hcontra

/-- C6 amended: the client assumes one read delivers one complete message; a
read holding only part of a message is dropped whole through the parse-error
path (logged and skipped, the connection and the loop state unchanged), and
no bytes are carried over to the next read. -/
theorem c6_fragment_dropped (s : CState) (m : VRControllerData)
    (rest : List ReadResult) :
    runRead s (ReadResult.recv (Chunk.fstHalf m) :: rest) = runRead s rest ∧
    runRead s (ReadResult.recv (Chunk.sndHalf m) :: rest) = runRead s rest := by
  refine ⟨rfl, rfl⟩

/-- C10: every successfully decoded sample produces exactly one telemetry
message (the telemetry list and the decoded list have the same length, with
the telemetry absolute components being exactly the decoded samples in
order), and on any tick whose sample does not hold the trigger the relative
pose handed to publishControllerData is the freshly default-constructed
value, not a previously computed transform. -/
theorem c10_telemetry_per_sample :
    (∀ (s : CState) (l : List ReadResult),
      (runRead s l).telemetry.length = (runRead s l).decoded.length ∧
      (runRead s l).telemetry.map Prod.fst = (runRead s l).decoded) ∧
    (∀ (s : CState) (j : VRControllerData), j.trigger_button = false →
      (clientTick s j).2.relData = defaultVRData) := by
  constructor
  · intro s l
    induction l generalizing s with
    | nil => exact ⟨rfl, rfl⟩
    | cons e rest ih =>
        cases e with
        | recv c =>
            cases c with
            | whole m =>
                have h := ih (clientTick s m).1
                simpa [runRead, parseChunk] using h
            | fstHalf m => simpa [runRead, parseChunk] using ih s
            | sndHalf m => simpa [runRead, parseChunk] using ih s
        | eofRead => simpa [runRead] using ih s
        | errRead => exact ⟨rfl, rfl⟩
  · intro s j htrig
    cases hs : s.pressed <;> simp [clientTick, htrig, hs]

/-- Witness for c10_telemetry_per_sample: a run holding one whole message, one
fragment and one peer close, and a released-trigger tick from the default
state. -/
theorem c10_telemetry_per_sample_witness :
    ((runRead cInit
        [ReadResult.recv (Chunk.whole c6m), ReadResult.recv (Chunk.fstHalf c6m),
         ReadResult.eofRead]).telemetry.length
      = (runRead cInit
          [ReadResult.recv (Chunk.whole c6m), ReadResult.recv (Chunk.fstHalf c6m),
           ReadResult.eofRead]).decoded.length ∧
    (clientTick cInit defaultVRData).2.relData = defaultVRData) :=
  ⟨(c10_telemetry_per_sample.1 cInit
      [ReadResult.recv (Chunk.whole c6m), ReadResult.recv (Chunk.fstHalf c6m),
       ReadResult.eofRead]).1,
   c10_telemetry_per_sample.2 cInit defaultVRData rfl⟩

/-! Connect and reconnect loops: Client::start lines 175 to 178 and
Client::reconnect lines 45 to 53 of vive_node.cpp. -/

/-- The initial connect loop of Client::start (vive_node.cpp lines 175 to
178), driven by a list of connect-attempt outcomes (true means the connect
call succeeds). Each loop iteration calls connectToServer once with no sleep;
the result counts the attempts made and the one-second backoff sleeps taken
until the first success, or none when every listed attempt fails. -/
def startConnect : List Bool → Option (ℕ × ℕ)
  | [] => none
  | o :: rest =>
      if o then some (1, 0)
      else Option.map (fun p => (p.1 + 1, p.2)) (startConnect rest)

/-- Client::reconnect (vive_node.cpp lines 45 to 53), driven the same way:
each iteration of its while loop first sleeps one second (line 49) and then
calls connectToServer, so every attempt is preceded by a backoff sleep. -/
def reconnectLoop : List Bool → Option (ℕ × ℕ)
  | [] => none
  | o :: rest =>
      if o then some (1, 1)
      else Option.map (fun p => (p.1 + 1, p.2 + 1)) (reconnectLoop rest)

/-- C8 counterexample: one failed connect attempt followed by a success in the
initial connect loop of Client::start gives two attempts but zero backoff
sleeps — the loop at vive_node.cpp lines 175 to 178 retries immediately, so
the claimed fixed backoff delay between consecutive attempts does not hold
for that loop. -/
theorem c8_counterexample :
    startConnect [false, true] = some (2, 0) ∧ ¬(1 ≤ (0 : ℕ)) := by
  refine ⟨rfl, by norm_num⟩

/-- C8 amended: with N failing attempts followed by one success, both connect
loops make exactly N plus one attempts and then leave the loop connected, and
no connect failure is fatal; the reconnect loop sleeps its one-second backoff
before every attempt (N plus one sleeps, hence a backoff between any two
consecutive attempts), while the initial connect loop of Client::start
retries with no backoff at all. -/
theorem c8_connect_attempts (n : ℕ) :
    startConnect (List.replicate n false ++ [true]) = some (n + 1, 0) ∧
    reconnectLoop (List.replicate n false ++ [true]) = some (n + 1, n + 1) := by
  induction n with
  | zero => exact ⟨rfl, rfl⟩
  | succ k ih =>
      rw [List.replicate_succ, List.cons_append]
      constructor
      · show Option.map (fun p => (p.1 + 1, p.2))
            (startConnect (List.replicate k false ++ [true])) = some (k + 1 + 1, 0)
        rw [ih.1]
        rfl
      · show Option.map (fun p => (p.1 + 1, p.2 + 1))
            (reconnectLoop (List.replicate k false ++ [true])) = some (k + 1 + 1, k + 1 + 1)
        rw [ih.2]
        rfl

end ViveRos2
